import Mathlib

/-!
Verification of the connection-lifecycle behaviour of the portfolio
backend. The repository has two entry points:

* `index.js` (long-running mode): `connectDB()` awaits
  `mongoose.connect(process.env.MONGODB_ATLAS_URI, ...)`, logs on success
  and calls `process.exit(1)` on failure. It is invoked at module scope
  without `await`, after which module evaluation continues through
  middleware and route registration down to `app.listen(PORT, ...)`.

* `api/index.js` (serverless mode): a module-scope `cachedConnection`
  starts as `null`. `connectDB()` returns the cached connection when it
  is non-null; otherwise it awaits `mongoose.connect(...)`, assigns the
  result to `cachedConnection` on success and rethrows on failure. A
  per-request middleware awaits `connectDB()` and on failure responds
  `500 {message: 'Database connection failed', error: error.message}`.

Both entry points expose `/api/health`, which reads
`mongoose.connection.readyState`, maps it through a status-text table
and responds with a JSON body; each entry point ends with a 404
fallback handler.

The embedding below models the process-wide mutable state touched by
this code, the synchronous prefix of `connectDB` up to its `await`, its
resumption when the awaited driver call settles, the driver-reported
disconnect event, the request middleware, the health handlers and the
404 handlers, translated directly from the JavaScript source.
-/

namespace Portfolio

/-- JavaScript values that occur in the response bodies built by this
code: `undefined`, `null` and strings. `JSON.stringify` omits a key
whose value is `undefined`, so `undef` models an absent field. -/
inductive JsVal where
  | undef
  | null
  | str (s : String)
  deriving DecidableEq, Repr

/-- JavaScript `x || y` as it is applied to the (string-or-undefined)
connection fields in the serverless health handler: `undefined` and
`null` are falsy, a string object reference is truthy. -/
def JsVal.jsOr (x y : JsVal) : JsVal :=
  match x with
  | .undef => y
  | .null => y
  | .str s => .str s

/-- Identifier of an established connection object (the value
`mongoose.connect` resolves to). -/
abbrev Handle := Nat

/-- The fields of `mongoose.connection` that the code reads:
`readyState` (0 disconnected, 1 connected, 2 connecting,
3 disconnecting), `host` and `name`. Before any connection is
established, `host` and `name` are `undefined`. -/
structure MongooseConnection where
  readyState : Nat
  host : JsVal
  name : JsVal
  deriving DecidableEq, Repr

/-- Process-wide mutable state touched by the connection code of
`api/index.js`: the module-scope `cachedConnection`, the singleton
`mongoose.connection`, and a count of `mongoose.connect` invocations
(establishment attempts), which the JavaScript does not store but which
the embedding tracks to state I/O-freedom claims. -/
structure SysState where
  cachedConnection : Option Handle
  conn : MongooseConnection
  attempts : Nat
  deriving DecidableEq, Repr

/-- State of a freshly started process: no cached connection, driver
disconnected, no establishment attempt made. -/
def initState : SysState :=
  { cachedConnection := none
  , conn := { readyState := 0, host := JsVal.undef, name := JsVal.undef }
  , attempts := 0 }

/-- Result of running the synchronous prefix of the serverless
`connectDB` (everything up to its `await`): either the cached handle is
returned at once, or `mongoose.connect` has been invoked and the call
is suspended awaiting its outcome. -/
inductive CheckResult where
  | immediate (h : Handle)
  | suspended
  deriving DecidableEq, Repr

/-- Synchronous prefix of `connectDB` in `api/index.js`:
`if (cachedConnection) return cachedConnection;` and otherwise the call
to `mongoose.connect(process.env.MONGODB_ATLAS_URI, ...)`, counted as
one establishment attempt, with the driver moving `readyState` to 2
(connecting); the function then suspends at the `await`. The cache is
written only after the `await` resolves, in `connectDB_resume`. -/
def connectDB_check (s : SysState) : SysState × CheckResult :=
  match s.cachedConnection with
  | some h => (s, CheckResult.immediate h)
  | none =>
      ({ s with attempts := s.attempts + 1
              , conn := { s.conn with readyState := 2 } }
      , CheckResult.suspended)

/-- Resumption of the serverless `connectDB` once the awaited
`mongoose.connect` settles. On success the driver has populated
`mongoose.connection` (readyState 1, host, name); the function assigns
`cachedConnection = conn` and returns the connection. On failure the
driver is back at readyState 0; the catch block logs and rethrows, and
`cachedConnection` is left untouched. -/
def connectDB_resume (s : SysState) (outcome : Except String (Handle × String × String)) :
    SysState × Except String Handle :=
  match outcome with
  | Except.ok (h, hst, nm) =>
      ({ s with cachedConnection := some h
              , conn := { readyState := 1, host := JsVal.str hst, name := JsVal.str nm } }
      , Except.ok h)
  | Except.error e =>
      ({ s with conn := { s.conn with readyState := 0 } }, Except.error e)

/-- Driver-reported loss of connection: the driver flips `readyState`
to 0. The listener registered on the `disconnected` event in `index.js`
only logs, and `api/index.js` registers no such listener; in neither
file is `cachedConnection` or any other cached state modified. -/
def onDisconnected (s : SysState) : SysState :=
  { s with conn := { s.conn with readyState := 0 } }

/-- Run the synchronous prefixes of `n` concurrent `connectDB` calls,
each reaching its cache check (and, when the cache is empty, invoking
`mongoose.connect`) before any of the awaited driver calls settles. -/
def runChecks : Nat → SysState → SysState
  | 0, s => s
  | n + 1, s => runChecks n (connectDB_check s).1

/-- Full interleaved run of two concurrent `connectDB` calls from a
fresh process: both callers execute their cache check before either
driver call settles, then both driver calls resolve successfully with
distinct connection objects. Returns the final state and the two
callers results. -/
def twoConcurrentRun : SysState × Except String Handle × Except String Handle :=
  let sA := (connectDB_check initState).1
  let sB := (connectDB_check sA).1
  let rA := connectDB_resume sB (Except.ok (1, "hostA", "portfolio"))
  let rB := connectDB_resume rA.1 (Except.ok (2, "hostB", "portfolio"))
  (rB.1, rA.2, rB.2)

/-- Outcome of the per-request database middleware of `api/index.js`:
either control passes to the next handler, or the request is answered
with a status code, a message and the error field of the JSON body. -/
inductive MiddlewareOutcome where
  | next
  | respond (status : Nat) (message : String) (error : String)
  deriving DecidableEq, Repr

/-- Per-request database middleware of `api/index.js`: it awaits
`connectDB()`; on success it calls `next()`, and on failure it responds
`500` with `message: 'Database connection failed'` and
`error: error.message`. -/
def dbMiddleware (connectOutcome : Except String Handle) : MiddlewareOutcome :=
  match connectOutcome with
  | Except.ok _ => MiddlewareOutcome.next
  | Except.error e => MiddlewareOutcome.respond 500 "Database connection failed" e

/-- First action taken by `connectDB` (in both entry points) as a
function of the `MONGODB_ATLAS_URI` environment value: the code
performs no presence check and directly invokes `mongoose.connect`
with whatever the environment holds, `undefined` included. The
`raiseConfigurationError` action never occurs in this code; it exists
so that its absence can be stated. -/
inductive ConnectAction where
  | driverConnect (uri : Option String)
  | raiseConfigurationError
  deriving DecidableEq, Repr

/-- The first action of both `connectDB` implementations: call
`mongoose.connect(process.env.MONGODB_ATLAS_URI, ...)` unconditionally. -/
def connectDB_firstAction (uriEnv : Option String) : ConnectAction :=
  ConnectAction.driverConnect uriEnv

/-- Resumption of the long-running `connectDB` of `index.js` once the
awaited `mongoose.connect` settles: success logs the host and database
name; failure logs and calls `process.exit(1)`. -/
inductive LongResume where
  | connected (h : Handle)
  | processExit (code : Nat)
  deriving DecidableEq, Repr

/-- Catch structure of `connectDB` in `index.js`: any error from the
awaited driver call reaches the single catch block, which exits the
process with code 1. -/
def connectDB_long_resume (outcome : Except String Handle) : LongResume :=
  match outcome with
  | Except.ok h => LongResume.connected h
  | Except.error _ => LongResume.processExit 1

/-- Events of the `index.js` module evaluation relevant to startup
ordering. -/
inductive StartupEvent where
  | connectStart
  | listen
  | connectResolved (ok : Bool)
  | processExit (code : Nat)
  deriving DecidableEq, Repr

/-- Evaluation order of the `index.js` module: `connectDB()` is invoked
without `await`, so it runs synchronously up to its first `await`
(starting the driver connect) and suspends; module evaluation then
continues synchronously through event registration, routes and the
`app.listen(PORT, ...)` call; only on a later event-loop turn does the
awaited driver call settle, and on failure the catch block calls
`process.exit(1)`. -/
def startupTrace (outcome : Except String Handle) : List StartupEvent :=
  [StartupEvent.connectStart, StartupEvent.listen] ++
    match outcome with
    | Except.ok _ => [StartupEvent.connectResolved true]
    | Except.error _ => [StartupEvent.connectResolved false, StartupEvent.processExit 1]

/-- Status-text table shared by both health handlers; a JavaScript
property lookup outside the keys 0..3 yields `undefined`. -/
def dbStatusText (n : Nat) : JsVal :=
  match n with
  | 0 => JsVal.str "disconnected"
  | 1 => JsVal.str "connected"
  | 2 => JsVal.str "connecting"
  | 3 => JsVal.str "disconnecting"
  | _ => JsVal.undef

/-- Nested `database` object of the health response body. -/
structure HealthDatabase where
  status : JsVal
  host : JsVal
  name : JsVal
  deriving DecidableEq, Repr

/-- Health response body fields common to both entry points (the
timestamp, which is real time, is outside the embedding). -/
structure HealthBody where
  status : String
  message : String
  database : HealthDatabase
  deriving DecidableEq, Repr

/-- Handler of `GET /api/health` in `index.js`: it reads
`mongoose.connection.readyState`, maps it through the status table and
responds via `res.json` (HTTP status 200, the Express default, since
`res.status` is never called) with top-level `status: 'OK'` and the raw
`host` and `name` fields. -/
def healthHandler (c : MongooseConnection) : Nat × HealthBody :=
  (200
  , { status := "OK"
    , message := "Server is running"
    , database := { status := dbStatusText c.readyState
                  , host := c.host
                  , name := c.name } })

/-- Handler of `GET /api/health` in `api/index.js`: same read of
`readyState`, but `host` and `name` fall back to the string
`Not connected` via the JavaScript or-else operator. -/
def healthHandlerServerless (c : MongooseConnection) : Nat × HealthBody :=
  (200
  , { status := "OK"
    , message := "Server is running on Vercel"
    , database := { status := dbStatusText c.readyState
                  , host := c.host.jsOr (JsVal.str "Not connected")
                  , name := c.name.jsOr (JsVal.str "Not connected") } })

/-- The health endpoint as a step on the process state: the handler of
`index.js` only reads `mongoose.connection` and builds a response; it
writes no connection state and never invokes `connectDB`. -/
def healthStepLong (s : SysState) : SysState × (Nat × HealthBody) :=
  (s, healthHandler s.conn)

/-- The health endpoint of `api/index.js` as a step on the process
state: the handler body likewise only reads `mongoose.connection`. -/
def healthStepServerless (s : SysState) : SysState × (Nat × HealthBody) :=
  (s, healthHandlerServerless s.conn)

/-- Body of a 404 fallback response; `path` is `undef` when the field
is absent from the JSON. -/
structure NotFoundBody where
  message : String
  path : JsVal
  deriving DecidableEq, Repr

/-- 404 fallback of `index.js`: `res.status(404).json({message: 'Route
not found'})` — the body carries no path field. -/
def notFoundHandler (_requestPath : String) : Nat × NotFoundBody :=
  (404, { message := "Route not found", path := JsVal.undef })

/-- 404 fallback of `api/index.js`: `res.status(404).json({message:
'Route not found', path: req.originalUrl})` — the body echoes the
request path. -/
def notFoundHandlerServerless (requestPath : String) : Nat × NotFoundBody :=
  (404, { message := "Route not found", path := JsVal.str requestPath })

/-- C1 counterexample: two concurrent `connectDB` calls from a fresh
process, both of whose cache checks run before either driver call
settles, make two establishment attempts (not one), and the two callers
receive distinct handles (not the same resulting handle). -/
theorem two_concurrent_calls_two_attempts :
    twoConcurrentRun.1.attempts = 2 ∧
    twoConcurrentRun.2.1 = Except.ok 1 ∧ twoConcurrentRun.2.2 = Except.ok 2 ∧
    twoConcurrentRun.2.1 ≠ twoConcurrentRun.2.2 := by
  refine ⟨rfl, rfl, rfl, ?_⟩
  intro h
  rw [show twoConcurrentRun.2.1 = Except.ok 1 from rfl,
      show twoConcurrentRun.2.2 = Except.ok 2 from rfl] at h
  simp at h

/-- C1 (amended): only the completed handle is memoized, not the
in-flight establishment: every `connectDB` call whose cache check runs
while `cachedConnection` is still null invokes `mongoose.connect`
itself, so `n` concurrent calls issued while no handle exists make `n`
establishment attempts, and the cache remains empty until one of the
awaited driver calls resolves. -/
theorem concurrent_checks_attempt_count (n : Nat) (s : SysState)
    (hc : s.cachedConnection = none) :
    (runChecks n s).attempts = s.attempts + n ∧
    (runChecks n s).cachedConnection = none := by
  induction n generalizing s with
  | zero => exact ⟨by simp [runChecks], by simp [runChecks, hc]⟩
  | succ m ih =>
      have h2 : (connectDB_check s).1.cachedConnection = none := by
        simp [connectDB_check, hc]
      have ha : (connectDB_check s).1.attempts = s.attempts + 1 := by
        simp [connectDB_check, hc]
      have ihx := ih _ h2
      refine ⟨?_, ?_⟩
      · simp only [runChecks]
        rw [ihx.1, ha]
        omega
      · simp only [runChecks]
        exact ihx.2

/-- C1 witness: three concurrent calls from the fresh process state make
three establishment attempts and leave the cache empty. -/
theorem concurrent_checks_attempt_count_witness :
    (runChecks 3 initState).attempts = initState.attempts + 3 ∧
    (runChecks 3 initState).cachedConnection = none :=
  concurrent_checks_attempt_count 3 initState rfl

/-- C2 counterexample: take a connected process (handle 1 cached, one
attempt made) after which the driver reports a disconnect; the next
`connectDB` call returns the previously cached handle immediately and
makes no fresh establishment attempt, because no code invalidates the
cache on the disconnect event. -/
theorem disconnect_stale_handle_returned :
    (connectDB_check (onDisconnected
        ⟨some 1, ⟨1, JsVal.str "cluster0", JsVal.str "portfolio"⟩, 1⟩)).2
      = CheckResult.immediate 1 ∧
    (connectDB_check (onDisconnected
        ⟨some 1, ⟨1, JsVal.str "cluster0", JsVal.str "portfolio"⟩, 1⟩)).1.attempts = 1 := by
  constructor <;> rfl

/-- C2 (amended): a driver-reported disconnect flips `readyState` to 0
but leaves `cachedConnection` untouched (the `disconnected` listener in
`index.js` only logs and `api/index.js` registers none), so every later
`connectDB` call still returns the stale cached handle with no fresh
establishment. -/
theorem disconnect_does_not_invalidate_cache (s : SysState) (h : Handle)
    (hc : s.cachedConnection = some h) :
    (onDisconnected s).cachedConnection = some h ∧
    connectDB_check (onDisconnected s) = (onDisconnected s, CheckResult.immediate h) := by
  refine ⟨hc, ?_⟩
  simp [connectDB_check, onDisconnected, hc]

/-- C2 witness: the amended statement evaluated at a concrete connected
state that then loses its connection. -/
theorem disconnect_does_not_invalidate_cache_witness :
    (onDisconnected ⟨some 1, ⟨1, JsVal.str "cluster0", JsVal.str "portfolio"⟩, 1⟩).cachedConnection
        = some 1 ∧
    connectDB_check (onDisconnected ⟨some 1, ⟨1, JsVal.str "cluster0", JsVal.str "portfolio"⟩, 1⟩)
        = (onDisconnected ⟨some 1, ⟨1, JsVal.str "cluster0", JsVal.str "portfolio"⟩, 1⟩,
           CheckResult.immediate 1) :=
  disconnect_does_not_invalidate_cache _ 1 rfl

/-- C3 counterexample: when establishment fails with a concrete driver
error, the serverless middleware answers 500 with the underlying error
message placed in the body, so the cause is leaked to the client. -/
theorem middleware_leaks_cause :
    dbMiddleware (Except.error "querySrv ENOTFOUND _mongodb._tcp.cluster0")
      = MiddlewareOutcome.respond 500 "Database connection failed"
          "querySrv ENOTFOUND _mongodb._tcp.cluster0" := rfl

/-- C3 (amended): for every request during which connection
establishment fails, the serverless middleware responds 500 with the
generic message together with the underlying error message in the
`error` field of the body: the cause is included, not withheld. -/
theorem middleware_500_with_cause (e : String) :
    dbMiddleware (Except.error e)
      = MiddlewareOutcome.respond 500 "Database connection failed" e := rfl

/-- C4 counterexample: with the connection URI absent from the
environment, the first action of `connectDB` is to invoke the driver
connect with the undefined URI; no distinguished configuration failure
is raised. -/
theorem missing_uri_no_config_check :
    connectDB_firstAction none = ConnectAction.driverConnect none ∧
    connectDB_firstAction none ≠ ConnectAction.raiseConfigurationError := by
  refine ⟨rfl, ?_⟩
  intro h
  cases h

/-- C4 (amended): neither entry point checks the environment variable:
`connectDB` passes the (possibly undefined) URI straight to
`mongoose.connect`, and the resulting driver error flows through the
same generic failure path as any connection error — in serverless mode
the rethrown error becomes the middleware 500 response, in long-running
mode the catch block exits the process with code 1. No
`ConfigurationError` exists in this code. -/
theorem missing_uri_driver_invoked :
    connectDB_firstAction none = ConnectAction.driverConnect none ∧
    (∀ e, dbMiddleware (Except.error e)
        = MiddlewareOutcome.respond 500 "Database connection failed" e) ∧
    (∀ e, connectDB_long_resume (Except.error e) = LongResume.processExit 1) :=
  ⟨rfl, fun _ => rfl, fun _ => rfl⟩

/-- C5 counterexample: on a failing establishment, the startup trace of
`index.js` is connect-start, then listen, then the failure resolution,
then the exit: the listener binds before the connection attempt
completes, so the connection does not complete before the listener
binds and the process serves during the window before the exit. -/
theorem startup_listen_before_connect_resolves :
    startupTrace (Except.error "ECONNREFUSED")
      = [StartupEvent.connectStart, StartupEvent.listen,
         StartupEvent.connectResolved false, StartupEvent.processExit 1] ∧
    List.indexOf StartupEvent.listen (startupTrace (Except.error "ECONNREFUSED"))
      < List.indexOf (StartupEvent.connectResolved false)
          (startupTrace (Except.error "ECONNREFUSED")) := by
  refine ⟨rfl, ?_⟩
  show List.indexOf StartupEvent.listen
      [StartupEvent.connectStart, StartupEvent.listen,
       StartupEvent.connectResolved false, StartupEvent.processExit 1]
    < List.indexOf (StartupEvent.connectResolved false)
      [StartupEvent.connectStart, StartupEvent.listen,
       StartupEvent.connectResolved false, StartupEvent.processExit 1]
  decide

/-- C5 (amended): `connectDB()` is invoked exactly once at startup, but
it is not awaited: the listener binds before the connection attempt
resolves in both the success and the failure trace; when establishment
fails, the process afterwards exits with code 1. -/
theorem startup_trace_shape :
    (∀ h, startupTrace (Except.ok h)
        = [StartupEvent.connectStart, StartupEvent.listen,
           StartupEvent.connectResolved true]) ∧
    (∀ e, startupTrace (Except.error e)
        = [StartupEvent.connectStart, StartupEvent.listen,
           StartupEvent.connectResolved false, StartupEvent.processExit 1]) ∧
    (∀ o, (startupTrace o).count StartupEvent.connectStart = 1 ∧
          (startupTrace o).take 2 = [StartupEvent.connectStart, StartupEvent.listen]) := by
  refine ⟨fun h => rfl, fun e => rfl, fun o => ?_⟩
  cases o with
  | ok h =>
      refine ⟨?_, rfl⟩
      show List.count StartupEvent.connectStart
          [StartupEvent.connectStart, StartupEvent.listen,
           StartupEvent.connectResolved true] = 1
      decide
  | error e =>
      refine ⟨?_, rfl⟩
      show List.count StartupEvent.connectStart
          [StartupEvent.connectStart, StartupEvent.listen,
           StartupEvent.connectResolved false, StartupEvent.processExit 1] = 1
      decide

/-- C6 counterexample: on the never-connected connection (readyState 0,
host undefined), both health handlers report `disconnected`, but
neither reports a null host: `index.js` leaves the host undefined (the
field is absent from the JSON) and `api/index.js` substitutes the
string `Not connected`. -/
theorem health_host_not_null :
    (healthHandler ⟨0, JsVal.undef, JsVal.undef⟩).2.database.status
        = JsVal.str "disconnected" ∧
    (healthHandler ⟨0, JsVal.undef, JsVal.undef⟩).2.database.host ≠ JsVal.null ∧
    (healthHandlerServerless ⟨0, JsVal.undef, JsVal.undef⟩).2.database.host
        = JsVal.str "Not connected" ∧
    (healthHandlerServerless ⟨0, JsVal.undef, JsVal.undef⟩).2.database.host ≠ JsVal.null := by
  refine ⟨rfl, ?_, rfl, ?_⟩ <;> intro h <;> cases h

/-- C6 (amended): a health check on a connection that never got
established (readyState 0, host undefined) succeeds with status 200 and
reports database status `disconnected`, with the host left undefined
(field absent) by the `index.js` handler and replaced by the string
`Not connected` by the `api/index.js` handler — in neither case null. -/
theorem health_after_failure_fields (c : MongooseConnection)
    (h0 : c.readyState = 0) (hh : c.host = JsVal.undef) :
    (healthHandler c).1 = 200 ∧
    (healthHandler c).2.database.status = JsVal.str "disconnected" ∧
    (healthHandler c).2.database.host = JsVal.undef ∧
    (healthHandlerServerless c).2.database.host = JsVal.str "Not connected" := by
  refine ⟨rfl, ?_, ?_, ?_⟩ <;>
    simp [healthHandler, healthHandlerServerless, dbStatusText, h0, hh, JsVal.jsOr]

/-- C6 witness: the amended statement evaluated at the never-connected
connection. -/
theorem health_after_failure_fields_witness :
    (healthHandler ⟨0, JsVal.undef, JsVal.undef⟩).1 = 200 ∧
    (healthHandler ⟨0, JsVal.undef, JsVal.undef⟩).2.database.status
        = JsVal.str "disconnected" ∧
    (healthHandler ⟨0, JsVal.undef, JsVal.undef⟩).2.database.host = JsVal.undef ∧
    (healthHandlerServerless ⟨0, JsVal.undef, JsVal.undef⟩).2.database.host
        = JsVal.str "Not connected" :=
  health_after_failure_fields ⟨0, JsVal.undef, JsVal.undef⟩ rfl rfl

/-- C7 (confirmed): the health read is side-effect-free in both entry
points: for every process state, handling a health request leaves the
entire state (cached connection, driver connection, and in particular
the establishment-attempt count) unchanged — it never triggers
establishment. -/
theorem health_read_frame (s : SysState) :
    (healthStepLong s).1 = s ∧ (healthStepServerless s).1 = s ∧
    (healthStepLong s).1.attempts = s.attempts ∧
    (healthStepServerless s).1.attempts = s.attempts ∧
    (healthStepLong s).1.cachedConnection = s.cachedConnection ∧
    (healthStepServerless s).1.conn = s.conn :=
  ⟨rfl, rfl, rfl, rfl, rfl, rfl⟩

/-- C8 (confirmed): once a handle is cached (as it is whenever the
connection is in state Connected), every `connectDB` call returns that
same cached handle immediately, with the state — in particular the
establishment-attempt count — unchanged: zero establishment I/O. -/
theorem cached_handle_returned_immediately (s : SysState) (h : Handle)
    (hc : s.cachedConnection = some h) (_hr : s.conn.readyState = 1) :
    connectDB_check s = (s, CheckResult.immediate h) := by
  simp [connectDB_check, hc]

/-- C8 witness: the idempotence statement evaluated at a concrete
connected state with cached handle 7. -/
theorem cached_handle_returned_immediately_witness :
    connectDB_check ⟨some 7, ⟨1, JsVal.str "cluster0", JsVal.str "portfolio"⟩, 1⟩
      = (⟨some 7, ⟨1, JsVal.str "cluster0", JsVal.str "portfolio"⟩, 1⟩,
         CheckResult.immediate 7) :=
  cached_handle_returned_immediately _ 7 rfl rfl

/-- C9 counterexample: for the unmatched path `/api/nope`, the 404
fallback of `index.js` responds with a body that does not echo the
request path (the path field is undefined). -/
theorem long_404_omits_path :
    (notFoundHandler "/api/nope").1 = 404 ∧
    (notFoundHandler "/api/nope").2.path ≠ JsVal.str "/api/nope" := by
  refine ⟨rfl, ?_⟩
  intro h
  cases h

/-- C9 (amended): only the serverless 404 fallback echoes the offending
request path; the long-running fallback of `index.js` responds 404 with
the bare message `Route not found` and no path field. -/
theorem notFound_handlers_behaviour (p : String) :
    notFoundHandlerServerless p = (404, { message := "Route not found", path := JsVal.str p }) ∧
    notFoundHandler p = (404, { message := "Route not found", path := JsVal.undef }) :=
  ⟨rfl, rfl⟩

/-- C10 (confirmed): the `index.js` health endpoint always responds
with HTTP 200 and top-level status OK, for every driver readyState;
only the nested database status field reflects the connection state. -/
theorem health_always_ok_200 (c : MongooseConnection) :
    (healthHandler c).1 = 200 ∧
    (healthHandler c).2.status = "OK" ∧
    (healthHandler c).2.database.status = dbStatusText c.readyState :=
  ⟨rfl, rfl, rfl⟩

end Portfolio
